import Mathlib

/-!
Shallow embedding of the Wayland client in src/main.rs: the global registry
handler, shared-memory pool allocation, buffer provisioning (draw_frame),
the event dispatch handlers, and the startup sequence of main.  Requests
sent to the server and log lines are modelled as an explicit output trace;
panics (unwrap on None, todo!, expect) and anyhow errors are modelled by
an explicit result type.
-/

/-- Pixel formats in scope (wl_shm::Format); only Argb8888 is used. -/
inductive Format
  | Argb8888
deriving DecidableEq

/-- Decoration modes of zxdg_toplevel_decoration_v1. -/
inductive DecorationMode
  | clientSide
  | serverSide
deriving DecidableEq

/-- Protocol requests the client sends, at message level (wire framing is out of scope). -/
inductive Request
  | bind (name version : Nat) (iface : String)
  | getRegistry
  | createSurface
  | getXdgSurface
  | getToplevel
  | setTitle (title : String)
  | getToplevelDecoration
  | setMode (mode : DecorationMode)
  | pong (serial : Nat)
  | ackConfigure (serial : Nat)
  | createPool (size : Nat)
  | createBuffer (offset width height stride : Nat) (format : Format)
  | attach (x y : Int)
  | commit
deriving DecidableEq

/-- An observable output of the client: either a request sent to the server
or a log line (debug!/info!). -/
inductive Output
  | req (r : Request)
  | log (msg : String)
deriving DecidableEq

/-- Result of running a piece of client code: normal return, an anyhow
error propagated with ?, or a panic (unwrap on None, todo!, expect). -/
inductive Res (α : Type)
  | ok (a : α)
  | err (msg : String)
  | panicked (msg : String)
deriving DecidableEq

/-- A bound capability handle: the global name it was bound from and the
version carried by the bind request. -/
structure Handle where
  name : Nat
  version : Nat
deriving DecidableEq

/-- The AppState struct of main.rs.  Handles whose identity carries no
protocol data are Option Unit; bound globals record name and version. -/
structure AppState where
  display : Option Unit
  compositor : Option Handle
  registry : Option Unit
  shm : Option Handle
  xdg_wm_base : Option Handle
  xdg_decoration_manager : Option Handle
  surface : Option Unit
  xdg_surface : Option Unit
  xdg_toplevel : Option Unit
  queue_handle : Option Unit
deriving DecidableEq

/-- Default::default() for AppState: every field is None. -/
def AppState.default : AppState :=
  { display := none, compositor := none, registry := none, shm := none,
    xdg_wm_base := none, xdg_decoration_manager := none, surface := none,
    xdg_surface := none, xdg_toplevel := none, queue_handle := none }

/-- AppState::handle_global_add.  Matches the interface string; for the
four recognized interfaces it logs, issues a bind and stores the handle.
Only the decoration manager caps the version with min(version, 1); the
other three bind at the advertised version. -/
def handle_global_add (s : AppState) (name : Nat) (iface : String) (version : Nat) :
    AppState × List Output :=
  if iface = "wl_compositor" then
    ({ s with compositor := some ⟨name, version⟩ },
      [Output.log "Adding compositor", Output.req (Request.bind name version "wl_compositor")])
  else if iface = "wl_shm" then
    ({ s with shm := some ⟨name, version⟩ },
      [Output.log "Adding shm", Output.req (Request.bind name version "wl_shm")])
  else if iface = "xdg_wm_base" then
    ({ s with xdg_wm_base := some ⟨name, version⟩ },
      [Output.log "Adding xdg_wm_base", Output.req (Request.bind name version "xdg_wm_base")])
  else if iface = "zxdg_decoration_manager_v1" then
    ({ s with xdg_decoration_manager := some ⟨name, min version 1⟩ },
      [Output.log "Adding decoration manager",
       Output.req (Request.bind name (min version 1) "zxdg_decoration_manager_v1")])
  else (s, [])

/-- State component of handle_global_add, used to state its frame conditions. -/
def addState (s : AppState) (name : Nat) (iface : String) (version : Nat) : AppState :=
  (handle_global_add s name iface version).1

/-- Outcome of the system calls create_shm_pool performs: tempfile(),
File::set_len, libc::mmap.  true means the call succeeds. -/
structure ShmSys where
  tempfileOk : Bool
  setLenOk : Bool
  mmapOk : Bool
deriving DecidableEq

/-- The environment in which every system call succeeds. -/
def sysOk : ShmSys := ⟨true, true, true⟩

/-- An anonymous backing file, abstracted to its length. -/
structure ShmFile where
  len : Nat
deriving DecidableEq

/-- A memory mapping, abstracted to its length and protection/sharing flags. -/
structure MappedRegion where
  len : Nat
  readable : Bool
  writable : Bool
  shared : Bool
deriving DecidableEq

/-- create_shm_pool: tempfile()?, set_len(size)?, mmap(PROT_READ|PROT_WRITE,
MAP_SHARED); bails with an error if mmap returns MAP_FAILED.  On success the
file has exactly the requested length and the mapping is read-write shared. -/
def create_shm_pool (sys : ShmSys) (size : Nat) : Except String (ShmFile × MappedRegion) :=
  if sys.tempfileOk = true then
    if sys.setLenOk = true then
      if sys.mmapOk = true then
        Except.ok ({ len := size },
          { len := size, readable := true, writable := true, shared := true })
      else Except.error "failed to mmap memory"
    else Except.error "set_len failed"
  else Except.error "tempfile failed"

/-- let stride = width * 4 (4 bytes per pixel) in draw_frame. -/
def strideOf (width : Nat) : Nat := width * 4

/-- let size = stride * height in draw_frame. -/
def poolSizeOf (width height : Nat) : Nat := strideOf width * height

/-- The byte the fill loop stores at offset base + i within one pixel:
Alpha 0xFF, Red 0x00, Green 0x00, Blue 0xFF, in memory order. -/
def pixByte : Nat → Nat
  | 0 => 0xFF
  | 1 => 0x00
  | 2 => 0x00
  | _ => 0xFF

/-- One iteration of the fill loop: write the four pixel bytes at base. -/
def writePixel (mem : Nat → Nat) (base : Nat) : Nat → Nat :=
  fun o =>
    if o = base then 0xFF
    else if o = base + 1 then 0x00
    else if o = base + 2 then 0x00
    else if o = base + 3 then 0xFF
    else mem o

/-- The inner loop of draw_frame: for x in 0..width, write the pixel at
offset (y * width + x) * 4. -/
def fillRow (width y : Nat) (mem : Nat → Nat) : Nat → Nat :=
  (List.range width).foldl (fun m x => writePixel m ((y * width + x) * 4)) mem

/-- The outer loop of draw_frame: for y in 0..height, run the inner loop. -/
def fillFrame (width height : Nat) (mem : Nat → Nat) : Nat → Nat :=
  (List.range height).foldl (fun m y => fillRow width y m) mem

/-- The mapped region before the fill: a freshly sized anonymous file reads
as zero bytes. -/
def zeroMem : Nat → Nat := fun _ => 0

/-- Memory content of the 500x500 frame produced by draw_frame. -/
def frameMem : Nat → Nat := fillFrame 500 500 zeroMem

/-- The protocol buffer draw_frame creates, with its declared geometry and
the content of the mapped region backing it. -/
structure Buffer where
  width : Nat
  height : Nat
  stride : Nat
  size : Nat
  format : Format
  mem : Nat → Nat

/-- draw_frame: unwraps the queue handle, computes stride and size for a
500x500 frame, allocates shared memory (propagating its error with ?),
unwraps the shm capability, issues create_pool(size) and
create_buffer(0, width, height, stride, Argb8888), then fills the region. -/
def draw_frame (sys : ShmSys) (s : AppState) : List Output × Res Buffer :=
  match s.queue_handle with
  | none => ([], Res.panicked "called unwrap on a None value")
  | some _ =>
    let width := 500
    let height := 500
    let stride := strideOf width
    let size := poolSizeOf width height
    match create_shm_pool sys size with
    | Except.error e => ([], Res.err e)
    | Except.ok _fm =>
      match s.shm with
      | none => ([], Res.panicked "called unwrap on a None value")
      | some _ =>
        ([Output.req (Request.createPool size),
          Output.req (Request.createBuffer 0 width height stride Format.Argb8888)],
         Res.ok { width := width, height := height, stride := stride, size := size,
                  format := Format.Argb8888, mem := fillFrame width height zeroMem })

/-- Server events the client dispatches, one constructor per handled
event of the Dispatch implementations in main.rs. -/
inductive Event
  | global (name : Nat) (iface : String) (version : Nat)
  | globalRemove (name : Nat)
  | ping (serial : Nat)
  | xdgConfigure (serial : Nat)
  | toplevelConfigure (width height : Int)
  | toplevelClose
  | bufferRelease
  | shmFormat (format : Format)
  | surfaceEnter
  | decorationConfigure (mode : DecorationMode)
deriving DecidableEq

/-- starts_with on strings, modelled as a char-wise prefix check. -/
def strStartsWith (s p : String) : Bool := p.data.isPrefixOf s.data

/-- The Dispatch impl for XdgSurface on a Configure event: log, ack_configure
with the received serial, unwrap toplevel, queue handle and surface, run
draw_frame (expect panics on its error), then attach(Some(buffer), 0, 0)
and commit. -/
def dispatchConfigure (sys : ShmSys) (s : AppState) (serial : Nat) :
    List Output × Res AppState :=
  let pre := [Output.log "xdg surface configure event",
              Output.req (Request.ackConfigure serial)]
  match s.xdg_toplevel with
  | none => (pre, Res.panicked "called unwrap on a None value")
  | some _ =>
    match s.queue_handle with
    | none => (pre, Res.panicked "called unwrap on a None value")
    | some _ =>
      match s.surface with
      | none => (pre, Res.panicked "called unwrap on a None value")
      | some _ =>
        match draw_frame sys s with
        | (douts, Res.ok _) =>
          (pre ++ douts ++ [Output.req (Request.attach 0 0), Output.req Request.commit],
           Res.ok s)
        | (douts, Res.err _) => (pre ++ douts, Res.panicked "failed to draw frame")
        | (douts, Res.panicked msg) => (pre ++ douts, Res.panicked msg)

/-- The event dispatch of main.rs: one case per Dispatch implementation.
Registry Global events log when the interface starts with wl and run
handle_global_add; GlobalRemove hits todo!() and panics; Ping is answered
with pong(serial); XdgSurface Configure runs the handshake; toplevel,
buffer, shm and surface events have empty handler bodies; the decoration
Configure event is logged. -/
def dispatch (sys : ShmSys) (s : AppState) (e : Event) : List Output × Res AppState :=
  match e with
  | Event.global name iface version =>
    let pre := if strStartsWith iface "wl" then [Output.log "new global event"] else []
    let r := handle_global_add s name iface version
    (pre ++ r.2, Res.ok r.1)
  | Event.globalRemove _ => ([], Res.panicked "not yet implemented")
  | Event.ping serial =>
    ([Output.log "xdg ping", Output.req (Request.pong serial)], Res.ok s)
  | Event.xdgConfigure serial => dispatchConfigure sys s serial
  | Event.toplevelConfigure _ _ => ([], Res.ok s)
  | Event.toplevelClose => ([], Res.ok s)
  | Event.bufferRelease => ([], Res.ok s)
  | Event.shmFormat _ => ([], Res.ok s)
  | Event.surfaceEnter => ([], Res.ok s)
  | Event.decorationConfigure _ => ([Output.log "decoration configure event"], Res.ok s)

/-- Sequential event processing: dispatch each event in order, accumulating
outputs; an error or panic aborts the run, keeping the outputs emitted so far. -/
def runEvents (sys : ShmSys) : AppState → List Event → List Output × Res AppState
  | s, [] => ([], Res.ok s)
  | s, e :: es =>
    match dispatch sys s e with
    | (outs, Res.ok s2) =>
      match runEvents sys s2 es with
      | (outs2, r) => (outs ++ outs2, r)
    | (outs, Res.err m) => (outs, Res.err m)
    | (outs, Res.panicked m) => (outs, Res.panicked m)

/-- The state of main() just before the startup round-trip: display, queue
handle and registry are set, everything else is still None. -/
def startState : AppState :=
  { AppState.default with display := some (), queue_handle := some (), registry := some () }

/-- The startup portion of main(), up to entering the blocking event loop:
set display and queue handle, get_registry, roundtrip (dispatching the
given events), then create_surface, get_xdg_surface, get_toplevel,
set_title, get_toplevel_decoration, set_mode(ServerSide) and the initial
surface.commit().  Each .unwrap() on a missing capability panics. -/
def mainStartup (sys : ShmSys) (events : List Event) : List Output × Res AppState :=
  let outs0 := [Output.req Request.getRegistry]
  match runEvents sys startState events with
  | (outs1, Res.ok s2) =>
    match s2.compositor with
    | none => (outs0 ++ outs1, Res.panicked "called unwrap on a None value")
    | some _ =>
      let s3 := { s2 with surface := some () }
      match s3.xdg_wm_base with
      | none => (outs0 ++ outs1 ++ [Output.req Request.createSurface],
                 Res.panicked "called unwrap on a None value")
      | some _ =>
        let s4 := { s3 with xdg_surface := some () }
        match s4.xdg_decoration_manager with
        | none => (outs0 ++ outs1 ++
                    [Output.req Request.createSurface, Output.req Request.getXdgSurface,
                     Output.req Request.getToplevel,
                     Output.req (Request.setTitle "Hello, world!")],
                   Res.panicked "called unwrap on a None value")
        | some _ =>
          let s5 := { s4 with xdg_toplevel := some () }
          (outs0 ++ outs1 ++
            [Output.req Request.createSurface, Output.req Request.getXdgSurface,
             Output.req Request.getToplevel, Output.req (Request.setTitle "Hello, world!"),
             Output.req Request.getToplevelDecoration,
             Output.req (Request.setMode DecorationMode.serverSide),
             Output.req Request.commit],
           Res.ok s5)
  | (outs1, Res.err m) => (outs0 ++ outs1, Res.err m)
  | (outs1, Res.panicked m) => (outs0 ++ outs1, Res.panicked m)

/-- Serials of the ack_configure requests in an output trace. -/
def acksOf (outs : List Output) : List Nat :=
  outs.filterMap (fun o =>
    match o with
    | Output.req (Request.ackConfigure n) => some n
    | _ => none)

/-- Serials of the pong requests in an output trace. -/
def pongsOf (outs : List Output) : List Nat :=
  outs.filterMap (fun o =>
    match o with
    | Output.req (Request.pong n) => some n
    | _ => none)

/-- Versions carried by the bind requests in an output trace. -/
def bindVersions (outs : List Output) : List Nat :=
  outs.filterMap (fun o =>
    match o with
    | Output.req (Request.bind _ v _) => some v
    | _ => none)

/-- Whether an output is an attach or a commit request. -/
def attachOrCommit (o : Output) : Bool :=
  match o with
  | Output.req (Request.attach _ _) => true
  | Output.req Request.commit => true
  | _ => false

/-- The ack_configure, attach and commit requests of a trace, in order. -/
def handshakeRequests (outs : List Output) : List Request :=
  outs.filterMap (fun o =>
    match o with
    | Output.req (Request.ackConfigure n) => some (Request.ackConfigure n)
    | Output.req (Request.attach x y) => some (Request.attach x y)
    | Output.req Request.commit => some Request.commit
    | _ => none)

/-- Whether an event is an xdg_surface Configure event. -/
def isConfigureEv (e : Event) : Bool :=
  match e with
  | Event.xdgConfigure _ => true
  | _ => false

/-- Whether a run finished normally. -/
def Res.isOk {α : Type} (r : Res α) : Bool :=
  match r with
  | Res.ok _ => true
  | _ => false

/-- The output trace the configure handler emits for one configure event
when the session state is complete and system calls succeed. -/
def configureOutputs (serial : Nat) : List Output :=
  [Output.log "xdg surface configure event",
   Output.req (Request.ackConfigure serial),
   Output.req (Request.createPool (poolSizeOf 500 500)),
   Output.req (Request.createBuffer 0 500 500 (strideOf 500) Format.Argb8888),
   Output.req (Request.attach 0 0), Output.req Request.commit]

/-- Concatenated configure-handler traces for a list of serials. -/
def configuresOutputs : List Nat → List Output
  | [] => []
  | n :: ns => configureOutputs n ++ configuresOutputs ns

/-- The session state is ready for the configure handshake: toplevel, queue
handle, surface and shm capability are all present. -/
def ready (s : AppState) : Bool :=
  s.xdg_toplevel.isSome && s.queue_handle.isSome && s.surface.isSome && s.shm.isSome

/-- A fully populated session state, as reached after a successful startup. -/
def readyState : AppState :=
  { display := some (), compositor := some ⟨1, 4⟩, registry := some (),
    shm := some ⟨2, 1⟩, xdg_wm_base := some ⟨3, 1⟩,
    xdg_decoration_manager := some ⟨4, 1⟩, surface := some (),
    xdg_surface := some (), xdg_toplevel := some (), queue_handle := some () }

/-- The global advertisements of the round-trip scenario. -/
def events0 : List Event :=
  [Event.global 1 "wl_compositor" 4, Event.global 2 "wl_shm" 1,
   Event.global 3 "xdg_wm_base" 1, Event.global 4 "zxdg_decoration_manager_v1" 1]

/-- writePixel stores pixByte of the in-pixel offset at covered positions. -/
theorem writePixel_at (m : Nat → Nat) (b o : Nat) (hle : b ≤ o) (hlt : o < b + 4) :
    writePixel m b o = pixByte (o - b) := by
  rcases (by omega : o = b ∨ o = b + 1 ∨ o = b + 2 ∨ o = b + 3) with h | h | h | h <;>
    simp [writePixel, pixByte, h, show b + 1 ≠ b from by omega,
      show b + 2 ≠ b from by omega, show b + 2 ≠ b + 1 from by omega,
      show b + 3 ≠ b from by omega, show b + 3 ≠ b + 1 from by omega,
      show b + 3 ≠ b + 2 from by omega, show b + 1 - b = 1 from by omega,
      show b + 2 - b = 2 from by omega, show b + 3 - b = 3 from by omega]

/-- writePixel leaves positions outside the pixel unchanged. -/
theorem writePixel_out (m : Nat → Nat) (b o : Nat) (h : o < b ∨ b + 4 ≤ o) :
    writePixel m b o = m o := by
  simp [writePixel, show o ≠ b from by omega, show o ≠ b + 1 from by omega,
    show o ≠ b + 2 from by omega, show o ≠ b + 3 from by omega]

/-- Folding writePixel over a list of 4-aligned bases writes pixByte at
every covered offset and leaves the rest of memory unchanged. -/
theorem applyWrites_char (bases : List Nat) :
    ∀ (m : Nat → Nat) (o : Nat), (∀ b ∈ bases, b % 4 = 0) →
      bases.foldl writePixel m o =
        if (o - o % 4) ∈ bases then pixByte (o % 4) else m o := by
  induction bases with
  | nil => intro m o _; simp
  | cons b bs ih =>
    intro m o hb
    have hb0 : b % 4 = 0 := hb b (List.mem_cons_self b bs)
    have hbs : ∀ x ∈ bs, x % 4 = 0 := fun x hx => hb x (List.mem_cons_of_mem b hx)
    have hmod : o % 4 < 4 := Nat.mod_lt o (by norm_num)
    rw [List.foldl_cons, ih (writePixel m b) o hbs]
    by_cases h1 : (o - o % 4) ∈ bs
    · simp [h1, List.mem_cons]
    · rw [if_neg h1]
      by_cases h2 : o - o % 4 = b
      · rw [if_pos (show (o - o % 4) ∈ b :: bs from by
          rw [h2]; exact List.mem_cons_self b bs)]
        rw [writePixel_at m b o (by omega) (by omega)]
        congr 1
        omega
      · rw [if_neg (by simp [List.mem_cons, h1, h2])]
        exact writePixel_out m b o (by omega)

/-- The bases written by one row of the fill loop. -/
def rowBases (width y : Nat) : List Nat :=
  (List.range width).map (fun x => (y * width + x) * 4)

/-- fillRow is the fold of writePixel over the row bases. -/
theorem fillRow_eq (width y : Nat) (m : Nat → Nat) :
    fillRow width y m = (rowBases width y).foldl writePixel m := by
  rw [fillRow, rowBases, List.foldl_map]

/-- Every row base is a multiple of 4. -/
theorem rowBases_mod (width y : Nat) : ∀ b ∈ rowBases width y, b % 4 = 0 := by
  intro b hb
  rw [rowBases, List.mem_map] at hb
  obtain ⟨x, _, rfl⟩ := hb
  omega

/-- Pointwise characterization of one row fill. -/
theorem fillRow_char (width y : Nat) (m : Nat → Nat) (o : Nat) :
    fillRow width y m o =
      if (o - o % 4) ∈ rowBases width y then pixByte (o % 4) else m o := by
  rw [fillRow_eq]
  exact applyWrites_char (rowBases width y) m o (rowBases_mod width y)

/-- Unfolding one outer iteration of the fill loop. -/
theorem fillFrame_succ (width h : Nat) (m : Nat → Nat) :
    fillFrame width (h + 1) m = fillRow width h (fillFrame width h m) := by
  rw [fillFrame, fillFrame, List.range_succ, List.foldl_append, List.foldl_cons,
    List.foldl_nil]

/-- After the fill loop, byte i of the pixel at (x, y) holds pixByte i. -/
theorem fillFrame_char (width : Nat) :
    ∀ (h : Nat) (m : Nat → Nat) (y x i : Nat), y < h → x < width → i < 4 →
      fillFrame width h m ((y * width + x) * 4 + i) = pixByte i := by
  intro h
  induction h with
  | zero => intro m y x i hy; exact absurd hy (Nat.not_lt_zero y)
  | succ n ih =>
    intro m y x i hy hx hi
    rw [fillFrame_succ, fillRow_char]
    have ho4 : ((y * width + x) * 4 + i) % 4 = i := by omega
    by_cases hmem : ((y * width + x) * 4 + i) - ((y * width + x) * 4 + i) % 4 ∈
        rowBases width n
    · rw [if_pos hmem, ho4]
    · rw [if_neg hmem]
      rcases Nat.lt_succ_iff_lt_or_eq.mp hy with hy2 | hy2
      · exact ih m y x i hy2 hx hi
      · exfalso
        apply hmem
        rw [ho4, show (y * width + x) * 4 + i - i = (y * width + x) * 4 from by omega, hy2]
        simp only [rowBases, List.mem_map, List.mem_range]
        exact ⟨x, hx, rfl⟩

/-- A state passing the ready check has all four handshake fields populated. -/
theorem ready_fields (s : AppState) (h : ready s = true) :
    s.xdg_toplevel = some () ∧ s.queue_handle = some () ∧ s.surface = some () ∧
      ∃ hd, s.shm = some hd := by
  rw [ready, Bool.and_eq_true, Bool.and_eq_true, Bool.and_eq_true] at h
  obtain ⟨⟨⟨h1, h2⟩, h3⟩, h4⟩ := h
  rw [Option.isSome_iff_exists] at h1 h2 h3 h4
  obtain ⟨u1, h1⟩ := h1
  obtain ⟨u2, h2⟩ := h2
  obtain ⟨u3, h3⟩ := h3
  exact ⟨h1, h2, h3, h4⟩

/-- On a ready state with all system calls succeeding, draw_frame returns the
pool and buffer creation requests and the filled 500x500 Argb8888 buffer. -/
theorem draw_frame_ready (s : AppState) (h : ready s = true) :
    draw_frame sysOk s =
      ([Output.req (Request.createPool (poolSizeOf 500 500)),
        Output.req (Request.createBuffer 0 500 500 (strideOf 500) Format.Argb8888)],
       Res.ok { width := 500, height := 500, stride := strideOf 500,
                size := poolSizeOf 500 500, format := Format.Argb8888, mem := frameMem }) := by
  obtain ⟨_, hq, _, hd, hsh⟩ := ready_fields s h
  simp [draw_frame, hq, hsh, create_shm_pool, sysOk, frameMem]

/-- The outputs of draw_frame never include an ack_configure request. -/
theorem draw_frame_acks (sys : ShmSys) (s : AppState) :
    acksOf (draw_frame sys s).1 = [] := by
  cases hq : s.queue_handle with
  | none => simp [draw_frame, hq, acksOf]
  | some u =>
    cases hc : create_shm_pool sys (poolSizeOf 500 500) with
    | error e => simp [draw_frame, hq, hc, acksOf]
    | ok fm =>
      cases hsh : s.shm with
      | none => simp [draw_frame, hq, hc, hsh, acksOf]
      | some hd => simp [draw_frame, hq, hc, hsh, acksOf]

/-- acksOf distributes over trace concatenation. -/
theorem acksOf_append (l1 l2 : List Output) :
    acksOf (l1 ++ l2) = acksOf l1 ++ acksOf l2 := by
  simp [acksOf, List.filterMap_append]

/-- The handshake trace for one configure event acks exactly its serial. -/
theorem acksOf_configureOutputs (n : Nat) :
    acksOf (configureOutputs n) = [n] := by
  simp [acksOf, configureOutputs]

/-- Every run of the configure handler emits exactly one ack_configure and it
carries the received serial, whatever the state and system call outcomes. -/
theorem dispatchConfigure_acks (sys : ShmSys) (s : AppState) (n : Nat) :
    acksOf (dispatchConfigure sys s n).1 = [n] := by
  have hdf := draw_frame_acks sys s
  cases ht : s.xdg_toplevel with
  | none => simp [dispatchConfigure, ht, acksOf]
  | some u1 =>
    cases hq : s.queue_handle with
    | none => simp [dispatchConfigure, ht, hq, acksOf]
    | some u2 =>
      cases hsu : s.surface with
      | none => simp [dispatchConfigure, ht, hq, hsu, acksOf]
      | some u3 =>
        rcases hdraw : draw_frame sys s with ⟨douts, r⟩
        rw [hdraw] at hdf
        have hdf2 : acksOf douts = [] := hdf
        cases r with
        | ok b =>
          simp only [dispatchConfigure, ht, hq, hsu, hdraw]
          rw [acksOf_append, acksOf_append, hdf2]
          simp [acksOf]
        | err m =>
          simp only [dispatchConfigure, ht, hq, hsu, hdraw]
          rw [acksOf_append, hdf2]
          simp [acksOf]
        | panicked m =>
          simp only [dispatchConfigure, ht, hq, hsu, hdraw]
          rw [acksOf_append, hdf2]
          simp [acksOf]

/-- On a ready state with all system calls succeeding, dispatching a configure
event emits the full handshake trace and leaves the state unchanged. -/
theorem dispatch_configure_ready (s : AppState) (h : ready s = true) (n : Nat) :
    dispatch sysOk s (Event.xdgConfigure n) = (configureOutputs n, Res.ok s) := by
  obtain ⟨ht, hq, hsu, _, _⟩ := ready_fields s h
  have hdf := draw_frame_ready s h
  simp [dispatch, dispatchConfigure, ht, hq, hsu, hdf, configureOutputs]

/-- Processing a list of configure events on a ready state emits the
concatenated handshake traces and returns to the same state. -/
theorem runEvents_configures (s : AppState) (h : ready s = true) :
    ∀ serials : List Nat,
      runEvents sysOk s (serials.map Event.xdgConfigure) =
        (configuresOutputs serials, Res.ok s) := by
  intro serials
  induction serials with
  | nil => simp [runEvents, configuresOutputs]
  | cons n ns ih =>
    have hd := dispatch_configure_ready s h n
    simp [runEvents, hd, ih, configuresOutputs]

/-- The acks of the concatenated handshake traces are the serials in order. -/
theorem acks_configuresOutputs (serials : List Nat) :
    acksOf (configuresOutputs serials) = serials := by
  induction serials with
  | nil => simp [configuresOutputs, acksOf]
  | cons n ns ih =>
    rw [configuresOutputs, acksOf_append, acksOf_configureOutputs, ih]
    simp

/-- Dispatching any non-configure event emits no attach and no commit. -/
theorem dispatch_no_attach_commit (sys : ShmSys) (s : AppState) (e : Event)
    (h : isConfigureEv e = false) :
    (dispatch sys s e).1.filter attachOrCommit = [] := by
  cases e with
  | global name iface version =>
    simp only [dispatch, handle_global_add]
    split_ifs <;> simp [attachOrCommit]
  | globalRemove name => simp [dispatch, attachOrCommit]
  | ping serial => simp [dispatch, attachOrCommit]
  | xdgConfigure serial => simp [isConfigureEv] at h
  | toplevelConfigure w hh => simp [dispatch, attachOrCommit]
  | toplevelClose => simp [dispatch, attachOrCommit]
  | bufferRelease => simp [dispatch, attachOrCommit]
  | shmFormat f => simp [dispatch, attachOrCommit]
  | surfaceEnter => simp [dispatch, attachOrCommit]
  | decorationConfigure mode => simp [dispatch, attachOrCommit]

/-- Processing any list of non-configure events emits no attach and no commit. -/
theorem runEvents_no_attach_commit (sys : ShmSys) :
    ∀ (events : List Event) (s : AppState),
      (∀ e ∈ events, isConfigureEv e = false) →
      (runEvents sys s events).1.filter attachOrCommit = [] := by
  intro events
  induction events with
  | nil => intro s _; simp [runEvents]
  | cons e es ih =>
    intro s hev
    have he : isConfigureEv e = false := hev e (List.mem_cons_self e es)
    have hes : ∀ x ∈ es, isConfigureEv x = false :=
      fun x hx => hev x (List.mem_cons_of_mem e hx)
    have hd := dispatch_no_attach_commit sys s e he
    rcases hdis : dispatch sys s e with ⟨outs, r⟩
    rw [hdis] at hd
    have hd2 : outs.filter attachOrCommit = [] := hd
    cases r with
    | ok s2 =>
      rcases hrun : runEvents sys s2 es with ⟨outs2, r2⟩
      have ih2 := ih s2 hes
      rw [hrun] at ih2
      have ih3 : outs2.filter attachOrCommit = [] := ih2
      simp only [runEvents, hdis, hrun]
      rw [List.filter_append, hd2, ih3]
      rfl
    | err m =>
      simp only [runEvents, hdis]
      exact hd2
    | panicked m =>
      simp only [runEvents, hdis]
      exact hd2

/-- C1 counterexample: there is no client-side version cap m such that the
wl_compositor bind request carries min(advertised version, m): the handler
passes the advertised version through unchanged, so at advertised version
m + 1 it requests m + 1, not m. -/
theorem compositor_bind_uncapped :
    ¬ ∃ m : Nat, ∀ v : Nat,
      bindVersions (handle_global_add AppState.default 1 "wl_compositor" v).2 =
        [min v m] := by
  rintro ⟨m, hm⟩
  have h1 := hm (m + 1)
  have h2 : bindVersions (handle_global_add AppState.default 1 "wl_compositor" (m + 1)).2
      = [m + 1] := by
    simp [handle_global_add, bindVersions]
  rw [h2] at h1
  simp only [List.cons.injEq] at h1
  omega

/-- C1 (amended): the bind requests for wl_compositor, wl_shm and xdg_wm_base
carry the server-advertised version unchanged; only the bind for
zxdg_decoration_manager_v1 caps the version at min(advertised, 1). -/
theorem bind_version_policy (s : AppState) (name v : Nat) :
    bindVersions (handle_global_add s name "wl_compositor" v).2 = [v] ∧
    bindVersions (handle_global_add s name "wl_shm" v).2 = [v] ∧
    bindVersions (handle_global_add s name "xdg_wm_base" v).2 = [v] ∧
    bindVersions (handle_global_add s name "zxdg_decoration_manager_v1" v).2 =
      [min v 1] := by
  refine ⟨?_, ?_, ?_, ?_⟩ <;> simp [handle_global_add, bindVersions]

/-- C4: every xdg_wm_base ping event with serial s is answered by a pong
request carrying the identical serial, in every state and syscall
environment, so independently of any surface handshake state. -/
theorem ping_pong_exact (sys : ShmSys) (s : AppState) (serial : Nat) :
    dispatch sys s (Event.ping serial) =
      ([Output.log "xdg ping", Output.req (Request.pong serial)], Res.ok s) ∧
    pongsOf (dispatch sys s (Event.ping serial)).1 = [serial] :=
  ⟨rfl, rfl⟩

/-- C6 counterexample: dispatching a GlobalRemove event for a never-bound,
unused global on the default state is not a no-op: the handler hits the
todo!() branch and panics instead of returning the state unchanged. -/
theorem global_remove_not_noop :
    dispatch sysOk AppState.default (Event.globalRemove 42) =
      ([], Res.panicked "not yet implemented") ∧
    dispatch sysOk AppState.default (Event.globalRemove 42) ≠
      ([], Res.ok AppState.default) := by
  refine ⟨rfl, ?_⟩
  decide

/-- C6 (amended): a GlobalRemove event — for any global, bound or unbound —
always hits the todo!() branch of the registry dispatch and panics,
terminating the process; no state is updated and no request is sent. -/
theorem global_remove_panics (sys : ShmSys) (s : AppState) (name : Nat) :
    dispatch sys s (Event.globalRemove name) =
      ([], Res.panicked "not yet implemented") :=
  rfl

/-- C9 counterexample: a toplevel window-state event is handled by an empty
handler body: no log line and no request is emitted and the state is
returned unchanged, so the event is silently dropped, not surfaced. -/
theorem toplevel_event_silent :
    dispatch sysOk AppState.default Event.toplevelClose =
      ([], Res.ok AppState.default) ∧
    (dispatch sysOk AppState.default Event.toplevelClose).1 = [] :=
  ⟨rfl, rfl⟩

/-- C9 (amended): inbound toplevel window-state events are recognized but
silently ignored: dispatching them never crashes or terminates the loop
(the result is ok with the state unchanged) but also emits no output at
all — nothing is logged or returned as a distinct signal. -/
theorem toplevel_events_ignored (sys : ShmSys) (s : AppState) (w h : Int) :
    dispatch sys s (Event.toplevelConfigure w h) = ([], Res.ok s) ∧
    dispatch sys s Event.toplevelClose = ([], Res.ok s) :=
  ⟨rfl, rfl⟩

/-- C10: frame conditions of handle_global_add: each of the four recognized
interface strings sets exactly its capability field (overwriting any
previous value) and leaves every other field unchanged; any other
interface string leaves the whole state unchanged. -/
theorem handle_global_add_frame (s : AppState) (name version : Nat) (iface : String) :
    (iface = "wl_compositor" →
      addState s name iface version = { s with compositor := some ⟨name, version⟩ }) ∧
    (iface = "wl_shm" →
      addState s name iface version = { s with shm := some ⟨name, version⟩ }) ∧
    (iface = "xdg_wm_base" →
      addState s name iface version = { s with xdg_wm_base := some ⟨name, version⟩ }) ∧
    (iface = "zxdg_decoration_manager_v1" →
      addState s name iface version =
        { s with xdg_decoration_manager := some ⟨name, min version 1⟩ }) ∧
    (iface ≠ "wl_compositor" → iface ≠ "wl_shm" → iface ≠ "xdg_wm_base" →
      iface ≠ "zxdg_decoration_manager_v1" → addState s name iface version = s) := by
  refine ⟨?_, ?_, ?_, ?_, ?_⟩
  · intro h; subst h; simp [addState, handle_global_add]
  · intro h; subst h; simp [addState, handle_global_add]
  · intro h; subst h; simp [addState, handle_global_add]
  · intro h; subst h; simp [addState, handle_global_add]
  · intro h1 h2 h3 h4; simp [addState, handle_global_add, h1, h2, h3, h4]

/-- C10 witness: the frame conditions evaluated at a recognized and at an
unrecognized interface string. -/
theorem handle_global_add_frame_witness :
    addState AppState.default 7 "wl_shm" 3 =
      { AppState.default with shm := some ⟨7, 3⟩ } ∧
    addState AppState.default 7 "wl_seat" 3 = AppState.default :=
  ⟨(handle_global_add_frame AppState.default 7 3 "wl_shm").2.1 rfl,
   (handle_global_add_frame AppState.default 7 3 "wl_seat").2.2.2.2
     (by decide) (by decide) (by decide) (by decide)⟩

/-- C2 counterexample: the startup sequence of main() itself issues a commit
request (the initial commit, line 234 of main.rs) although no configure
event has been received: every event of the startup round-trip is a global
advertisement, yet a commit is among the startup outputs. -/
theorem startup_commit_before_configure :
    (events0.all fun e => !isConfigureEv e) = true ∧
    Output.req Request.commit ∈ (mainStartup sysOk events0).1 := by
  refine ⟨by decide, by decide⟩

/-- C2 (amended): before the first configure event the client issues no
attach; the only commit issued before the first configure is the single
initial buffer-less commit that ends startup and solicits the configure:
dispatching any non-configure event emits no attach and no commit, and a
successful startup whose round-trip delivers only non-configure events has
exactly one commit and no attach among its outputs, the commit being its
final request. -/
theorem no_attach_commit_before_configure :
    (∀ sys s e, isConfigureEv e = false →
      (dispatch sys s e).1.filter attachOrCommit = []) ∧
    (∀ sys events, (∀ e ∈ events, isConfigureEv e = false) →
      (mainStartup sys events).2.isOk = true →
      (mainStartup sys events).1.filter attachOrCommit = [Output.req Request.commit]) := by
  constructor
  · exact fun sys s e h => dispatch_no_attach_commit sys s e h
  · intro sys events hev hok
    have hstart := runEvents_no_attach_commit sys events startState hev
    rcases hrun : runEvents sys startState events with ⟨outs1, r⟩
    rw [hrun] at hstart
    have h1 : outs1.filter attachOrCommit = [] := hstart
    cases r with
    | ok s2 =>
      cases hc : s2.compositor with
      | none => simp [mainStartup, hrun, hc, Res.isOk] at hok
      | some hdc =>
        cases hw : s2.xdg_wm_base with
        | none => simp [mainStartup, hrun, hc, hw, Res.isOk] at hok
        | some hdw =>
          cases hdm : s2.xdg_decoration_manager with
          | none => simp [mainStartup, hrun, hc, hw, hdm, Res.isOk] at hok
          | some hdd =>
            simp only [mainStartup, hrun, hc, hw, hdm]
            rw [List.filter_append, List.filter_append, h1]
            simp [attachOrCommit]
    | err m => simp [mainStartup, hrun, Res.isOk] at hok
    | panicked m => simp [mainStartup, hrun, Res.isOk] at hok

/-- C2 witness: the amended statement instantiated at a non-configure event
and at the concrete startup scenario with the four advertised globals. -/
theorem no_attach_commit_before_configure_witness :
    (dispatch sysOk AppState.default Event.toplevelClose).1.filter attachOrCommit = [] ∧
    (mainStartup sysOk events0).1.filter attachOrCommit = [Output.req Request.commit] :=
  ⟨no_attach_commit_before_configure.1 sysOk AppState.default Event.toplevelClose
     (by decide),
   no_attach_commit_before_configure.2 sysOk events0 (by decide) (by decide)⟩

/-- C3: every xdg_surface configure event with serial s is answered by exactly
one ack_configure carrying the identical serial, whatever the state and
syscall outcomes; over a list of configure events processed on a ready state
the acks are exactly the received serials, in the order received. -/
theorem configure_acks_exact (s : AppState) (serials : List Nat) (h : ready s = true) :
    (∀ sys s2 n, acksOf (dispatch sys s2 (Event.xdgConfigure n)).1 = [n]) ∧
    runEvents sysOk s (serials.map Event.xdgConfigure) =
      (configuresOutputs serials, Res.ok s) ∧
    acksOf (configuresOutputs serials) = serials :=
  ⟨fun sys s2 n => dispatchConfigure_acks sys s2 n,
   runEvents_configures s h serials, acks_configuresOutputs serials⟩

/-- C3 witness: the ready hypothesis holds of the concrete ready state and
the acks of three processed configure events are their serials in order. -/
theorem configure_acks_exact_witness :
    ready readyState = true ∧
    runEvents sysOk readyState ([7, 8, 9].map Event.xdgConfigure) =
      (configuresOutputs [7, 8, 9], Res.ok readyState) ∧
    acksOf (configuresOutputs [7, 8, 9]) = [7, 8, 9] :=
  ⟨by decide, (configure_acks_exact readyState [7, 8, 9] (by decide)).2⟩

/-- C5: the stride of a width-w frame is w * 4 and the pool size of a w by h
frame is w * h * 4 exactly (no padding), and draw_frame issues a pool
creation request scoped to exactly that size followed by a buffer creation
request describing the sub-region (offset 0, width, height, stride,
Argb8888). -/
theorem buffer_geometry (s : AppState) (h : ready s = true) (w hh : Nat) :
    strideOf w = w * 4 ∧
    poolSizeOf w hh = w * hh * 4 ∧
    (draw_frame sysOk s).1 =
      [Output.req (Request.createPool (poolSizeOf 500 500)),
       Output.req (Request.createBuffer 0 500 500 (strideOf 500) Format.Argb8888)] := by
  refine ⟨rfl, ?_, ?_⟩
  · unfold poolSizeOf strideOf; ring
  · rw [draw_frame_ready s h]

/-- C5 witness: the geometry statement instantiated at the concrete ready
state and a concrete width and height. -/
theorem buffer_geometry_witness :
    ready readyState = true ∧
    poolSizeOf 3 7 = 3 * 7 * 4 ∧
    (draw_frame sysOk readyState).1 =
      [Output.req (Request.createPool (poolSizeOf 500 500)),
       Output.req (Request.createBuffer 0 500 500 (strideOf 500) Format.Argb8888)] :=
  ⟨by decide, (buffer_geometry readyState (by decide) 3 7).2.1,
   (buffer_geometry readyState (by decide) 3 7).2.2⟩

/-- C7: on a ready state, receiving configure(serial 7) emits the trace
log, ack_configure(7), create_pool, create_buffer, attach(0,0), commit; its
ack/attach/commit subsequence is exactly ack_configure(7), attach(0,0),
commit in that order; draw_frame creates a 500x500 Argb8888 buffer and every
pixel of its memory holds the bytes 0xFF, 0x00, 0x00, 0xFF in that order. -/
theorem end_to_end_scenario (s : AppState) (h : ready s = true) (y x : Nat)
    (hy : y < 500) (hx : x < 500) :
    dispatch sysOk s (Event.xdgConfigure 7) = (configureOutputs 7, Res.ok s) ∧
    handshakeRequests (configureOutputs 7) =
      [Request.ackConfigure 7, Request.attach 0 0, Request.commit] ∧
    (draw_frame sysOk s).2 =
      Res.ok { width := 500, height := 500, stride := strideOf 500,
               size := poolSizeOf 500 500, format := Format.Argb8888, mem := frameMem } ∧
    frameMem ((y * 500 + x) * 4) = 0xFF ∧
    frameMem ((y * 500 + x) * 4 + 1) = 0x00 ∧
    frameMem ((y * 500 + x) * 4 + 2) = 0x00 ∧
    frameMem ((y * 500 + x) * 4 + 3) = 0xFF := by
  refine ⟨dispatch_configure_ready s h 7,
    by simp [handshakeRequests, configureOutputs], ?_, ?_, ?_, ?_, ?_⟩
  · rw [draw_frame_ready s h]
  · have hc := fillFrame_char 500 500 zeroMem y x 0 hy hx (by norm_num)
    simpa [frameMem, pixByte] using hc
  · have hc := fillFrame_char 500 500 zeroMem y x 1 hy hx (by norm_num)
    simpa [frameMem, pixByte] using hc
  · have hc := fillFrame_char 500 500 zeroMem y x 2 hy hx (by norm_num)
    simpa [frameMem, pixByte] using hc
  · have hc := fillFrame_char 500 500 zeroMem y x 3 hy hx (by norm_num)
    simpa [frameMem, pixByte] using hc

/-- C7 witness: the end-to-end statement instantiated at the concrete ready
state and at pixel (3, 4). -/
theorem end_to_end_scenario_witness :
    ready readyState = true ∧ (3 : Nat) < 500 ∧ (4 : Nat) < 500 ∧
    (dispatch sysOk readyState (Event.xdgConfigure 7) =
       (configureOutputs 7, Res.ok readyState) ∧
     handshakeRequests (configureOutputs 7) =
       [Request.ackConfigure 7, Request.attach 0 0, Request.commit] ∧
     (draw_frame sysOk readyState).2 =
       Res.ok { width := 500, height := 500, stride := strideOf 500,
                size := poolSizeOf 500 500, format := Format.Argb8888, mem := frameMem } ∧
     frameMem ((3 * 500 + 4) * 4) = 0xFF ∧
     frameMem ((3 * 500 + 4) * 4 + 1) = 0x00 ∧
     frameMem ((3 * 500 + 4) * 4 + 2) = 0x00 ∧
     frameMem ((3 * 500 + 4) * 4 + 3) = 0xFF) :=
  ⟨by decide, by decide, by decide,
   end_to_end_scenario readyState (by decide) 3 4 (by decide) (by decide)⟩

/-- C8: create_shm_pool fails whenever the file cannot be sized or the
mapping fails; the error is propagated unchanged — with no retry — to
draw_frame through the ? operator; and on success the backing file has
exactly the requested size and the mapping is a read-write, shared mapping
of that same size. -/
theorem create_shm_pool_spec (sys : ShmSys) (size : Nat) :
    (sys.tempfileOk = true → sys.setLenOk = false →
      create_shm_pool sys size = Except.error "set_len failed") ∧
    (sys.tempfileOk = true → sys.setLenOk = true → sys.mmapOk = false →
      create_shm_pool sys size = Except.error "failed to mmap memory") ∧
    (∀ f m, create_shm_pool sys size = Except.ok (f, m) →
      f.len = size ∧ m.len = size ∧ m.readable = true ∧ m.writable = true ∧
        m.shared = true) ∧
    (∀ (s : AppState) e, s.queue_handle = some () →
      create_shm_pool sys (poolSizeOf 500 500) = Except.error e →
      draw_frame sys s = ([], Res.err e)) := by
  refine ⟨?_, ?_, ?_, ?_⟩
  · intro h1 h2; simp [create_shm_pool, h1, h2]
  · intro h1 h2 h3; simp [create_shm_pool, h1, h2, h3]
  · intro f m hok
    obtain ⟨fl⟩ := f
    obtain ⟨ml, mr, mw, msh⟩ := m
    by_cases h1 : sys.tempfileOk = true
    · by_cases h2 : sys.setLenOk = true
      · by_cases h3 : sys.mmapOk = true
        · simp [create_shm_pool, h1, h2, h3] at hok
          obtain ⟨e1, e2, e3, e4, e5⟩ := hok
          exact ⟨e1.symm, e2.symm, e3, e4, e5⟩
        · simp [create_shm_pool, h1, h2, h3] at hok
      · simp [create_shm_pool, h1, h2] at hok
    · simp [create_shm_pool, h1] at hok
  · intro s e hq herr
    simp [draw_frame, hq, herr]

/-- C8 witness: a failing mmap yields the mmap error, and a failing set_len
propagates its error out of draw_frame unchanged. -/
theorem create_shm_pool_spec_witness :
    create_shm_pool ⟨true, true, false⟩ 4096 = Except.error "failed to mmap memory" ∧
    draw_frame ⟨true, false, true⟩ readyState = ([], Res.err "set_len failed") :=
  ⟨(create_shm_pool_spec ⟨true, true, false⟩ 4096).2.1 rfl rfl rfl,
   (create_shm_pool_spec ⟨true, false, true⟩ 0).2.2.2 readyState "set_len failed" rfl
     ((create_shm_pool_spec ⟨true, false, true⟩ (poolSizeOf 500 500)).1 rfl rfl)⟩
